import Mathlib

/-!
Verification of the fitness-tracker calculation module (`homework.py`).

The module computes distance, mean speed and calorie statistics for three
workout variants (Running, SportsWalking, Swimming) sharing a base class
`Training`, and a factory dispatching short activity codes to variants.
Numeric fields and arithmetic are modelled over `ℚ` (exact rational
arithmetic, the idealised semantics of the source's real-number formulas);
Python's float floor division `//` is modelled with `Int.floor` of the
rational quotient.  The base class's `get_spent_calories`, which raises
`NotImplementedError`, is modelled by returning `none`; the factory's
`KeyError` (unknown workout type) and the constructor-arity `TypeError`
are modelled with an explicit error type.
-/

namespace Homework

/-- `Training.M_IN_KM = 1000`: metres per kilometre. -/
def M_IN_KM : ℚ := 1000

/-- `Training.MIN_IN_HOUR = 60`: minutes per hour. -/
def MIN_IN_HOUR : ℚ := 60

/-- The class hierarchy rooted at `Training`.  `base` is a `Training`
instance constructed directly (the dataclass is instantiable); the other
constructors are the three concrete variants.  Field order follows the
dataclass field order in the source. -/
inductive Training where
  | base (action : ℚ) (duration : ℚ) (weight : ℚ)
  | running (action : ℚ) (duration : ℚ) (weight : ℚ)
  | sportsWalking (action : ℚ) (duration : ℚ) (weight : ℚ) (height : ℚ)
  | swimming (action : ℚ) (duration : ℚ) (weight : ℚ)
      (length_pool : ℚ) (count_pool : ℚ)
  deriving DecidableEq

/-- The `action` field, shared by all variants. -/
def Training.action : Training → ℚ
  | .base action _ _ => action
  | .running action _ _ => action
  | .sportsWalking action _ _ _ => action
  | .swimming action _ _ _ _ => action

/-- The `duration` field (hours), shared by all variants. -/
def Training.duration : Training → ℚ
  | .base _ duration _ => duration
  | .running _ duration _ => duration
  | .sportsWalking _ duration _ _ => duration
  | .swimming _ duration _ _ _ => duration

/-- The `weight` field (kg), shared by all variants. -/
def Training.weight : Training → ℚ
  | .base _ _ weight => weight
  | .running _ _ weight => weight
  | .sportsWalking _ _ weight _ => weight
  | .swimming _ _ weight _ _ => weight

/-- The class variable `LEN_STEP`: `0.65` on `Training`, shadowed by
`1.38` on `Swimming`. -/
def Training.LEN_STEP : Training → ℚ
  | .swimming _ _ _ _ _ => 1.38
  | _ => 0.65

/-- `Training.get_distance`: `action * LEN_STEP / M_IN_KM` (dynamic
lookup of `LEN_STEP`, so Swimming uses its own constant). -/
def Training.get_distance (t : Training) : ℚ :=
  t.action * t.LEN_STEP / M_IN_KM

/-- `get_mean_speed`: the base formula `get_distance / duration`, which
`Swimming` overrides with `length_pool * count_pool / M_IN_KM / duration`. -/
def Training.get_mean_speed (t : Training) : ℚ :=
  match t with
  | .swimming _ duration _ length_pool count_pool =>
      length_pool * count_pool / M_IN_KM / duration
  | _ => t.get_distance / t.duration

/-- `get_spent_calories`.  The base class raises `NotImplementedError`
(modelled as `none`); each variant overrides it with its own formula,
transcribed from the source (`//` is float floor division). -/
def Training.get_spent_calories (t : Training) : Option ℚ :=
  match t with
  | .base _ _ _ => none
  | .running _ duration weight =>
      some ((18 * t.get_mean_speed - 20) * weight / M_IN_KM
        * duration * MIN_IN_HOUR)
  | .sportsWalking _ duration weight height =>
      some ((0.035 + (⌊t.get_mean_speed ^ 2 / height⌋ : ℚ) * 0.029)
        * weight * duration * MIN_IN_HOUR)
  | .swimming _ _ weight _ _ =>
      some ((t.get_mean_speed + 1.1) * 2 * weight)

/-- `self.__class__.__name__`, used by `show_training_info` as the
`training_type` tag. -/
def Training.display_name : Training → String
  | .base _ _ _ => "Training"
  | .running _ _ _ => "Running"
  | .sportsWalking _ _ _ _ => "SportsWalking"
  | .swimming _ _ _ _ _ => "Swimming"

/-- `InfoMessage`: the summary record built by `show_training_info`
(the derived formatted `message` string is presentation only and out of
scope of the claims). -/
structure InfoMessage where
  training_type : String
  duration : ℚ
  distance : ℚ
  speed : ℚ
  calories : ℚ
  deriving DecidableEq

/-- `Training.show_training_info`: builds an `InfoMessage` from the three
computations; propagates the base class's `NotImplementedError`. -/
def Training.show_training_info (t : Training) : Option InfoMessage :=
  t.get_spent_calories.map (fun calories =>
    { training_type := t.display_name
      duration := t.duration
      distance := t.get_distance
      speed := t.get_mean_speed
      calories := calories })

/-- Errors the construction path can raise: the factory's `KeyError`
for an unrecognised code, and the constructor's `TypeError` when the
forwarded positional argument count does not match the field count. -/
inductive FactoryError where
  | unknownWorkoutType
  | arityMismatch
  deriving DecidableEq

/-- `WorkoutType.SWIMMING`. -/
def WorkoutType.SWIMMING : String := "SWM"

/-- `WorkoutType.RUNNING`. -/
def WorkoutType.RUNNING : String := "RUN"

/-- `WorkoutType.SPORTS_WALKING`. -/
def WorkoutType.SPORTS_WALKING : String := "WLK"

/-- `TrainingFactory.create`: raises `KeyError` when the code is not a
key of `WORKOUTS`, otherwise forwards the positional arguments to the
mapped variant constructor, whose arity check is modelled by matching
the argument list against the variant's exact field count. -/
def TrainingFactory.create (workout_type : String) (args : List ℚ) :
    Except FactoryError Training :=
  if workout_type = WorkoutType.SWIMMING then
    match args with
    | [action, duration, weight, length_pool, count_pool] =>
        .ok (.swimming action duration weight length_pool count_pool)
    | _ => .error .arityMismatch
  else if workout_type = WorkoutType.RUNNING then
    match args with
    | [action, duration, weight] => .ok (.running action duration weight)
    | _ => .error .arityMismatch
  else if workout_type = WorkoutType.SPORTS_WALKING then
    match args with
    | [action, duration, weight, height] =>
        .ok (.sportsWalking action duration weight height)
    | _ => .error .arityMismatch
  else
    .error .unknownWorkoutType

/-- `read_package`: unpacks the data list into the factory's positional
arguments. -/
def read_package (workout_type : String) (data : List ℚ) :
    Except FactoryError Training :=
  TrainingFactory.create workout_type data

/-- The valid-input conditions of the spec: non-negative `action` and
`count_pool`, positive `duration`, `weight` and `length_pool`. -/
def Training.validInputs : Training → Prop
  | .base action duration weight =>
      0 ≤ action ∧ 0 < duration ∧ 0 < weight
  | .running action duration weight =>
      0 ≤ action ∧ 0 < duration ∧ 0 < weight
  | .sportsWalking action duration weight _ =>
      0 ≤ action ∧ 0 < duration ∧ 0 < weight
  | .swimming action duration weight length_pool count_pool =>
      0 ≤ action ∧ 0 < duration ∧ 0 < weight
        ∧ 0 < length_pool ∧ 0 ≤ count_pool

end Homework

namespace Homework

/-- C1 counterexample: on Running(15000, 1, 75) the code's calorie
formula `(18 * 9.75 - 20) * 75 / 1000 * 1 * 60` evaluates to exactly
`699.75`, not approximately `700.575`; the two differ by `0.825`. -/
theorem C1_counterexample :
    (Training.running 15000 1 75).get_spent_calories = some 699.75
      ∧ (699.75 : ℚ) ≠ 700.575 ∧ (700.575 : ℚ) - 699.75 = 0.825 := by
  refine ⟨?_, by norm_num, by norm_num⟩
  norm_num [Training.get_spent_calories, Training.get_mean_speed,
    Training.get_distance, Training.action, Training.duration,
    Training.LEN_STEP, M_IN_KM, MIN_IN_HOUR]

/-- C1 (amended): Running(15000, 1, 75) has `get_distance = 9.75`,
`get_mean_speed = 9.75`, and `get_spent_calories`, computed as
`(18 * mean_speed - 20) * weight / 1000 * duration * 60`, equals
exactly `699.75`. -/
theorem C1_running_example :
    (Training.running 15000 1 75).get_distance = 9.75
      ∧ (Training.running 15000 1 75).get_mean_speed = 9.75
      ∧ (Training.running 15000 1 75).get_spent_calories
          = some ((18 * (Training.running 15000 1 75).get_mean_speed - 20)
              * 75 / 1000 * 1 * 60)
      ∧ (Training.running 15000 1 75).get_spent_calories = some 699.75 := by
  norm_num [Training.get_spent_calories, Training.get_mean_speed,
    Training.get_distance, Training.action, Training.duration,
    Training.LEN_STEP, M_IN_KM, MIN_IN_HOUR]

/-- C2: for every SportsWalking workout with positive `height`,
`duration` and `weight`, `get_spent_calories` equals
`(0.035 + floor(mean_speed ^ 2 / height) * 0.029) * weight * duration * 60`,
where the squared-speed-over-height term floor-divides by the raw
`height` field; SportsWalking(9000, 1, 75, 180) yields `157.5`. -/
theorem C2_walking_calories (action duration weight height : ℚ)
    (_hh : 0 < height) (_hd : 0 < duration) (_hw : 0 < weight) :
    (Training.sportsWalking action duration weight height).get_spent_calories
      = some ((0.035
          + (⌊(Training.sportsWalking action duration weight height).get_mean_speed
                ^ 2 / height⌋ : ℚ) * 0.029)
          * weight * duration * 60)
      ∧ (Training.sportsWalking 9000 1 75 180).get_spent_calories
          = some 157.5 := by
  constructor
  · simp [Training.get_spent_calories, MIN_IN_HOUR]
  · norm_num [Training.get_spent_calories, Training.get_mean_speed,
      Training.get_distance, Training.action, Training.duration,
      Training.LEN_STEP, M_IN_KM, MIN_IN_HOUR]

/-- C2 witness: the theorem at SportsWalking(9000, 1, 75, 180). -/
theorem C2_walking_calories_witness :
    (Training.sportsWalking 9000 1 75 180).get_spent_calories
      = some ((0.035
          + (⌊(Training.sportsWalking 9000 1 75 180).get_mean_speed
                ^ 2 / 180⌋ : ℚ) * 0.029) * 75 * 1 * 60)
      ∧ (Training.sportsWalking 9000 1 75 180).get_spent_calories
          = some 157.5 :=
  C2_walking_calories 9000 1 75 180 (by norm_num) (by norm_num) (by norm_num)

/-- C3: for every Swimming workout with positive `duration`,
`get_mean_speed` equals `length_pool * count_pool / 1000 / duration`,
does not depend on `action`, and `get_spent_calories` equals
`(mean_speed + 1.1) * 2 * weight`; Swimming(720, 1, 80, 25, 40) yields
mean speed `1` and calories `336`. -/
theorem C3_swimming (action a2 duration weight length_pool count_pool : ℚ)
    (_hd : 0 < duration) :
    (Training.swimming action duration weight length_pool count_pool).get_mean_speed
      = length_pool * count_pool / 1000 / duration
      ∧ (Training.swimming action duration weight length_pool count_pool).get_mean_speed
        = (Training.swimming a2 duration weight length_pool count_pool).get_mean_speed
      ∧ (Training.swimming action duration weight length_pool count_pool).get_spent_calories
        = some (((Training.swimming action duration weight length_pool
            count_pool).get_mean_speed + 1.1) * 2 * weight)
      ∧ (Training.swimming 720 1 80 25 40).get_mean_speed = 1
      ∧ (Training.swimming 720 1 80 25 40).get_spent_calories = some 336 := by
  refine ⟨rfl, rfl, rfl, ?_, ?_⟩ <;>
    norm_num [Training.get_spent_calories, Training.get_mean_speed,
      M_IN_KM]

/-- C3 witness: the theorem at Swimming(720, 1, 80, 25, 40). -/
theorem C3_swimming_witness :
    (Training.swimming 720 1 80 25 40).get_mean_speed = 25 * 40 / 1000 / 1
      ∧ (Training.swimming 720 1 80 25 40).get_mean_speed
        = (Training.swimming 15000 1 80 25 40).get_mean_speed
      ∧ (Training.swimming 720 1 80 25 40).get_spent_calories
        = some (((Training.swimming 720 1 80 25 40).get_mean_speed + 1.1) * 2 * 80)
      ∧ (Training.swimming 720 1 80 25 40).get_mean_speed = 1
      ∧ (Training.swimming 720 1 80 25 40).get_spent_calories = some 336 :=
  C3_swimming 720 15000 1 80 25 40 (by norm_num)

/-- C6: Swimming's `get_distance` uses the shadowing constant `1.38`
(`action * 1.38 / 1000`) while the base, Running and SportsWalking
variants use `action * 0.65 / 1000`. -/
theorem C6_len_step (a d w h lp cp : ℚ) :
    (Training.swimming a d w lp cp).get_distance = a * 1.38 / 1000
      ∧ (Training.running a d w).get_distance = a * 0.65 / 1000
      ∧ (Training.sportsWalking a d w h).get_distance = a * 0.65 / 1000
      ∧ (Training.base a d w).get_distance = a * 0.65 / 1000 := by
  refine ⟨?_, ?_, ?_, ?_⟩ <;>
    simp [Training.get_distance, Training.action, Training.LEN_STEP, M_IN_KM]

/-- C8: `get_spent_calories` on a bare `Training` instance raises
`NotImplementedError` (modelled as `none`), while each of the three
concrete variants overrides it and never yields that error. -/
theorem C8_abstract_calories (a d w h lp cp : ℚ) :
    (Training.base a d w).get_spent_calories = none
      ∧ (Training.running a d w).get_spent_calories ≠ none
      ∧ (Training.sportsWalking a d w h).get_spent_calories ≠ none
      ∧ (Training.swimming a d w lp cp).get_spent_calories ≠ none := by
  refine ⟨rfl, ?_, ?_, ?_⟩ <;> simp [Training.get_spent_calories]

/-- C4: `TrainingFactory.create` yields the unknown-workout-type error
exactly when the code is none of `"SWM"`, `"RUN"`, `"WLK"`, whatever the
accompanying data; for the three recognized codes (with matching data)
it constructs the Swimming, Running and SportsWalking variant
respectively. -/
theorem C4_factory_unknown (code : String) (data : List ℚ) :
    (TrainingFactory.create code data
        = .error .unknownWorkoutType
      ↔ code ≠ "SWM" ∧ code ≠ "RUN" ∧ code ≠ "WLK")
      ∧ (∀ a d w lp cp : ℚ, TrainingFactory.create "SWM" [a, d, w, lp, cp]
          = .ok (.swimming a d w lp cp))
      ∧ (∀ a d w : ℚ, TrainingFactory.create "RUN" [a, d, w]
          = .ok (.running a d w))
      ∧ (∀ a d w h : ℚ, TrainingFactory.create "WLK" [a, d, w, h]
          = .ok (.sportsWalking a d w h)) := by
  refine ⟨?_, fun a d w lp cp => rfl, fun a d w => rfl, fun a d w h => rfl⟩
  unfold TrainingFactory.create
  simp only [WorkoutType.SWIMMING, WorkoutType.RUNNING,
    WorkoutType.SPORTS_WALKING]
  split_ifs with h1 h2 h3
  · refine iff_of_false ?_ (by rintro ⟨hs, _, _⟩; exact hs h1)
    intro hmatch
    revert hmatch
    split <;> simp
  · refine iff_of_false ?_ (by rintro ⟨_, hr, _⟩; exact hr h2)
    intro hmatch
    revert hmatch
    split <;> simp
  · refine iff_of_false ?_ (by rintro ⟨_, _, hw⟩; exact hw h3)
    intro hmatch
    revert hmatch
    split <;> simp
  · simp [h1, h2, h3]

/-- C5: for each recognized code, `read_package` fails with the arity
error exactly when the data list's length differs from the variant's
field count (3 for Running, 4 for SportsWalking, 5 for Swimming), and
on a matching length binds the values positionally in field order. -/
theorem C5_arity (data : List ℚ) :
    (read_package "RUN" data = .error .arityMismatch ↔ data.length ≠ 3)
      ∧ (read_package "WLK" data = .error .arityMismatch ↔ data.length ≠ 4)
      ∧ (read_package "SWM" data = .error .arityMismatch ↔ data.length ≠ 5)
      ∧ (∀ a d w : ℚ, read_package "RUN" [a, d, w] = .ok (.running a d w))
      ∧ (∀ a d w h : ℚ, read_package "WLK" [a, d, w, h]
          = .ok (.sportsWalking a d w h))
      ∧ (∀ a d w lp cp : ℚ, read_package "SWM" [a, d, w, lp, cp]
          = .ok (.swimming a d w lp cp)) := by
  refine ⟨?_, ?_, ?_, fun a d w => rfl, fun a d w h => rfl,
    fun a d w lp cp => rfl⟩ <;>
  · rcases data with _ | ⟨a, _ | ⟨b, _ | ⟨c, _ | ⟨d, _ | ⟨e, _ | ⟨f, rest⟩⟩⟩⟩⟩⟩ <;>
      simp [read_package, TrainingFactory.create, WorkoutType.SWIMMING,
        WorkoutType.RUNNING, WorkoutType.SPORTS_WALKING]

/-- C7: under the spec's valid-input conditions (non-negative `action`
and `count_pool`, positive `duration`, `weight`, `length_pool`), every
variant's `get_distance` and `get_mean_speed` are non-negative. -/
theorem C7_nonneg (t : Training) (hv : t.validInputs) :
    0 ≤ t.get_distance ∧ 0 ≤ t.get_mean_speed := by
  cases t with
  | base action duration weight =>
      obtain ⟨ha, hd, hw⟩ := hv
      refine ⟨?_, ?_⟩ <;>
        simp only [Training.get_distance, Training.get_mean_speed,
          Training.action, Training.duration, Training.LEN_STEP, M_IN_KM] <;>
        positivity
  | running action duration weight =>
      obtain ⟨ha, hd, hw⟩ := hv
      refine ⟨?_, ?_⟩ <;>
        simp only [Training.get_distance, Training.get_mean_speed,
          Training.action, Training.duration, Training.LEN_STEP, M_IN_KM] <;>
        positivity
  | sportsWalking action duration weight height =>
      obtain ⟨ha, hd, hw⟩ := hv
      refine ⟨?_, ?_⟩ <;>
        simp only [Training.get_distance, Training.get_mean_speed,
          Training.action, Training.duration, Training.LEN_STEP, M_IN_KM] <;>
        positivity
  | swimming action duration weight length_pool count_pool =>
      obtain ⟨ha, hd, hw, hlp, hcp⟩ := hv
      refine ⟨?_, ?_⟩ <;>
        simp only [Training.get_distance, Training.get_mean_speed,
          Training.action, Training.duration, Training.LEN_STEP, M_IN_KM] <;>
        positivity

/-- C7 witness: the theorem at Running(15000, 1, 75) and at
Swimming(720, 1, 80, 25, 40). -/
theorem C7_nonneg_witness :
    (0 ≤ (Training.running 15000 1 75).get_distance
      ∧ 0 ≤ (Training.running 15000 1 75).get_mean_speed)
    ∧ (0 ≤ (Training.swimming 720 1 80 25 40).get_distance
      ∧ 0 ≤ (Training.swimming 720 1 80 25 40).get_mean_speed) :=
  ⟨C7_nonneg (Training.running 15000 1 75)
      ⟨by norm_num, by norm_num, by norm_num⟩,
    C7_nonneg (Training.swimming 720 1 80 25 40)
      ⟨by norm_num, by norm_num, by norm_num, by norm_num, by norm_num⟩⟩

/-- C9: on each variant with valid fields, `show_training_info` called
twice yields identical records field for field (the computation is
deterministic, with no hidden state), and the record's `training_type`
is the variant's display name: "Running", "SportsWalking", "Swimming". -/
theorem C9_summary (a d w h lp cp : ℚ) (_hd : 0 < d) (_hh : 0 < h) :
    ((Training.running a d w).show_training_info
        = (Training.running a d w).show_training_info
      ∧ (Training.running a d w).show_training_info.map InfoMessage.training_type
        = some "Running")
      ∧ ((Training.sportsWalking a d w h).show_training_info
          = (Training.sportsWalking a d w h).show_training_info
        ∧ (Training.sportsWalking a d w h).show_training_info.map
            InfoMessage.training_type = some "SportsWalking")
      ∧ ((Training.swimming a d w lp cp).show_training_info
          = (Training.swimming a d w lp cp).show_training_info
        ∧ (Training.swimming a d w lp cp).show_training_info.map
            InfoMessage.training_type = some "Swimming") :=
  ⟨⟨rfl, rfl⟩, ⟨rfl, rfl⟩, ⟨rfl, rfl⟩⟩

/-- C9 witness: the theorem at the sample inputs, fields
(15000, 1, 75), height 180, pool 25 × 40. -/
theorem C9_summary_witness :
    ((Training.running 15000 1 75).show_training_info
        = (Training.running 15000 1 75).show_training_info
      ∧ (Training.running 15000 1 75).show_training_info.map
          InfoMessage.training_type = some "Running")
      ∧ ((Training.sportsWalking 15000 1 75 180).show_training_info
          = (Training.sportsWalking 15000 1 75 180).show_training_info
        ∧ (Training.sportsWalking 15000 1 75 180).show_training_info.map
            InfoMessage.training_type = some "SportsWalking")
      ∧ ((Training.swimming 15000 1 75 25 40).show_training_info
          = (Training.swimming 15000 1 75 25 40).show_training_info
        ∧ (Training.swimming 15000 1 75 25 40).show_training_info.map
            InfoMessage.training_type = some "Swimming") :=
  C9_summary 15000 1 75 180 25 40 (by norm_num) (by norm_num)

/-- C10: for every valid Running workout whose mean speed is below
`20 / 18` km/h, `get_spent_calories` is strictly negative — the result
is never clamped at zero. -/
theorem C10_negative_calories (a d w : ℚ) (_ha : 0 ≤ a) (hd : 0 < d)
    (hw : 0 < w)
    (hs : (Training.running a d w).get_mean_speed < 20 / 18) :
    ∃ c : ℚ, (Training.running a d w).get_spent_calories = some c
      ∧ c < 0 := by
  refine ⟨(18 * (Training.running a d w).get_mean_speed - 20) * w / M_IN_KM
      * d * MIN_IN_HOUR, rfl, ?_⟩
  have h1 : 18 * (Training.running a d w).get_mean_speed - 20 < 0 := by
    linarith
  have h2 : (18 * (Training.running a d w).get_mean_speed - 20) * w < 0 :=
    mul_neg_of_neg_of_pos h1 hw
  have h3 : (18 * (Training.running a d w).get_mean_speed - 20) * w
      / M_IN_KM < 0 := by
    unfold M_IN_KM
    exact div_neg_of_neg_of_pos h2 (by norm_num)
  have h4 : (18 * (Training.running a d w).get_mean_speed - 20) * w
      / M_IN_KM * d < 0 := mul_neg_of_neg_of_pos h3 hd
  have h5 : (0 : ℚ) < MIN_IN_HOUR := by unfold MIN_IN_HOUR; norm_num
  exact mul_neg_of_neg_of_pos h4 h5

/-- C10 witness: the theorem at Running(1000, 1, 75), whose mean speed
is `0.65 < 20 / 18`. -/
theorem C10_negative_calories_witness :
    ∃ c : ℚ, (Training.running 1000 1 75).get_spent_calories = some c
      ∧ c < 0 :=
  C10_negative_calories 1000 1 75 (by norm_num) (by norm_num) (by norm_num)
    (by norm_num [Training.get_mean_speed, Training.get_distance,
      Training.action, Training.duration, Training.LEN_STEP, M_IN_KM])

end Homework
